import Mathlib

/-!
Shallow embedding of the HTE (hardware timestamping engine) core.

This file models the generic timestamp-distribution engine found in
`drivers/hte/hte.c` (shipped here concatenated after the Tegra194 provider in
`src/drivers/hte/hte-tegra194.c`): the per-channel state `struct hte_ts_info`,
the device `struct hte_device`, and the operations `hte_push_ts_ns`,
`hte_release_ts`, `hte_ts_dis_en_common`, `___hte_req_ts`, `hte_simple_xlate`
and the worker loop `_hte_wait_for_ts_data` / `_hte_threadfn`.

Modelling conventions:
* machine integers: `u64` counters are `Nat` reduced `% 2^64` where the code
  increments them; the `atomic_t` drop counter is reduced `% 2^32`; C `int`
  return values are Lean `Int` (0 = success, negative = error code);
* pointers that the code only tests against NULL (callbacks, task_struct,
  client data) become `Option`/`Bool` fields;
* calls into provider ops (`request`/`release`/`enable`/`disable`) and other
  externals (`try_module_get`, `kthread_create`, name allocation) are modelled
  by passing their observable result as an explicit argument, since the core
  only branches on those results;
* locked critical sections execute atomically in the source (spinlock/mutex),
  so they are modelled as pure state transformers;
* an out-of-bounds array read (`gdev->ei[i]` with `i ≥ nlines`) is undefined
  behavior in C; the model returns `none` there, making it observable;
* debugfs updates and `dev_dbg`/`dev_err` prints have no effect on the modelled
  state and are omitted.
-/

namespace Hte

/-- Linux error numbers used by the core (returned negated). -/
def EINVAL : Int := 22

/-- Error `-ENODEV` is returned when `try_module_get` fails. -/
def ENODEV : Int := 19

/-- Error `-EUSERS` is returned for double-request and release-of-unregistered. -/
def EUSERS : Int := 87

/-- The C `enum hte_dir` from `include/linux/hte.h`. -/
inductive HteDir where
  | risingEdgeTs
  | fallingEdgeTs
  | dirNosupp
deriving DecidableEq, Repr

/-- The C `enum hte_return`, the values a consumer callback may return. -/
inductive HteReturn where
  | cbHandled
  | runThreadedCb
  | cbTsDropped
  | cbError
deriving DecidableEq, Repr

/-- The C `struct hte_ts_data`: tsc and seq are `u64`. -/
structure HteTsData where
  tsc : Nat
  seq : Nat
  dir : HteDir
deriving DecidableEq, Repr

/-- The consumer's primary callback `hte_ts_cb_t` (with `cl_data` already
applied; the core passes `ei->cl_data` back verbatim on each call). -/
def HteTsCb := HteTsData → HteReturn

/-- The C `struct hte_ts_info`: per-channel state of the core.
`registered`/`disabled` are the `HTE_TS_REGISTERED`/`HTE_TS_DISABLE` bits of
`flags`; `run_thread` is the `HTE_CB_RUN_THREAD` bit of `hte_cb_flags`;
`thread` records whether a kthread exists (`ei->thread != NULL`); `tcb`
records whether a threaded callback was supplied; `cl_data` is the opaque
client pointer (`Option Nat` stands for a nullable opaque pointer). -/
structure HteTsInfo where
  xlated_id : Nat
  registered : Bool
  disabled : Bool
  run_thread : Bool
  seq : Nat
  hte_name : Bool
  cb : Option HteTsCb
  tcb : Bool
  dropped_ts : Nat
  thread : Bool
  cl_data : Option Nat

/-- The C `struct hte_device`: `nlines`-entry channel table, requested-count,
and the provider-module reference count manipulated through
`try_module_get`/`module_put` on `gdev->owner`. -/
structure HteDevice where
  nlines : Nat
  ts_req : Int
  owner_refs : Nat
  ei : List HteTsInfo

/-- Observable outcome of one `hte_push_ts_ns` call: the `int` return value,
the record as written back through `*data` (with `seq` assigned), whether the
primary callback was invoked, and whether `wake_up_process` was called. -/
structure PushOut where
  st : Int
  ts : HteTsData
  cbInvoked : Bool
  wake : Bool
deriving Repr

/-- The body of `hte_push_ts_ns` under `ei->slock` (source lines 1316-1341):
assign `data->seq = ei->seq++` unconditionally, then bail out with `-EINVAL`
if the channel is unregistered or disabled, otherwise invoke the primary
callback and act on its return value.  `none` models the NULL-callback
dereference, which cannot arise for a channel registered via the request
path. -/
def pushChannel (ei : HteTsInfo) (data : HteTsData) :
    Option (PushOut × HteTsInfo) :=
  let data' := { data with seq := ei.seq }
  let ei1 := { ei with seq := (ei.seq + 1) % 2 ^ 64 }
  if ¬ei1.registered ∨ ei1.disabled then
    some (⟨-EINVAL, data', false, false⟩, ei1)
  else
    match ei1.cb with
    | none => none
    | some cb =>
      match cb data' with
      | HteReturn.runThreadedCb =>
        if ei1.thread then
          if ei1.run_thread then
            some (⟨0, data', true, false⟩, ei1)
          else
            some (⟨0, data', true, true⟩, { ei1 with run_thread := true })
        else
          some (⟨0, data', true, false⟩, ei1)
      | HteReturn.cbTsDropped =>
        some (⟨0, data', true, false⟩,
              { ei1 with dropped_ts := (ei1.dropped_ts + 1) % 2 ^ 32 })
      | HteReturn.cbError =>
        some (⟨0, data', true, false⟩, ei1)
      | HteReturn.cbHandled =>
        some (⟨0, data', true, false⟩, ei1)

/-- Function `hte_push_ts_ns(chip, xlated_id, data)` (source lines 1300-1345).
The chip-level NULL checks are vacuous in the model; `chip->nlines` equals
`gdev->nlines` (set at registration).  Note the source bound check is
`xlated_id > chip->nlines`, so `xlated_id == nlines` passes the guard and the
subsequent `&chip->gdev->ei[xlated_id]` reads past the end of the
`nlines`-entry table — that out-of-bounds access is the `none` result. -/
def hte_push_ts_ns (gdev : HteDevice) (xlated_id : Nat) (data : HteTsData) :
    Option (PushOut × HteDevice) :=
  if decide (xlated_id > gdev.nlines) then
    some (⟨-EINVAL, data, false, false⟩, gdev)
  else
    match gdev.ei.get? xlated_id with
    | none => none
    | some ei =>
      match pushChannel ei data with
      | none => none
      | some (o, ei') =>
        some (o, { gdev with ei := gdev.ei.set xlated_id ei' })

/-- Function `hte_release_ts(desc)` (source lines 710-777), for the channel at table
index `i` (`ei = desc->hte_data`, with `i = ei - gdev->ei`).  `prov_release`
is the value returned by `gdev->chip->ops->release(chip, ei->xlated_id)`;
the call is issued only after the registered check succeeds, and a non-zero
result makes the function `goto unlock` — nothing is freed in that case.
On the success path: `ts_req` is decremented, `dropped_ts` and `seq` are
zeroed and `HTE_TS_REGISTERED` cleared under `slock`, the kthread (if any) is
stopped and joined, callbacks and client data are cleared, and the module
reference is dropped.  `none` models an out-of-bounds channel pointer. -/
def hte_release_ts (prov_release : Int) (gdev : HteDevice) (i : Nat) :
    Option (Int × HteDevice) :=
  match gdev.ei.get? i with
  | none => none
  | some ei =>
    if ¬ei.registered then
      some (-EUSERS, gdev)
    else if prov_release ≠ 0 then
      some (prov_release, gdev)
    else
      let ei' := { ei with
        dropped_ts := 0, seq := 0, registered := false,
        cb := none, tcb := false, thread := false, cl_data := none }
      some (0, { gdev with
        ts_req := gdev.ts_req - 1,
        owner_refs := gdev.owner_refs - 1,
        ei := gdev.ei.set i ei' })

/-- Function `hte_ts_dis_en_common(desc, en)` (source lines 779-847) for the channel at
index `i`.  `prov_result` is the provider's `enable`/`disable` return value;
the middle component of the result records whether the provider op was called
at all (it is not on the idempotent paths).  The `slock` is dropped around the
provider call and re-acquired to flip the flag, which only happens when the
provider returned 0. -/
def hte_ts_dis_en_common (prov_result : Int) (gdev : HteDevice) (i : Nat)
    (en : Bool) : Option (Int × Bool × HteDevice) :=
  match gdev.ei.get? i with
  | none => none
  | some ei =>
    if ¬ei.registered then
      some (-EUSERS, false, gdev)
    else if en then
      if ¬ei.disabled then
        some (0, false, gdev)
      else if prov_result ≠ 0 then
        some (prov_result, true, gdev)
      else
        some (0, true, { gdev with
          ei := gdev.ei.set i { ei with disabled := false } })
    else
      if ei.disabled then
        some (0, false, gdev)
      else if prov_result ≠ 0 then
        some (prov_result, true, gdev)
      else
        some (0, true, { gdev with
          ei := gdev.ei.set i { ei with disabled := true } })

/-- Function `hte_enable_ts(desc)`. -/
def hte_enable_ts (prov_result : Int) (gdev : HteDevice) (i : Nat) :
    Option (Int × Bool × HteDevice) :=
  hte_ts_dis_en_common prov_result gdev i true

/-- Function `hte_disable_ts(desc)`. -/
def hte_disable_ts (prov_result : Int) (gdev : HteDevice) (i : Nat) :
    Option (Int × Bool × HteDevice) :=
  hte_ts_dis_en_common prov_result gdev i false

/-- External results consumed by `___hte_req_ts`: whether
`try_module_get(gdev->owner)` succeeded, the result of `_hte_setup_thread`
(0, or the negative `PTR_ERR` of a failed `kthread_create`), the provider's
`ops->request` return value, and whether the `kzalloc` for an auto-generated
name succeeded. -/
structure ReqEnv where
  module_get_ok : Bool
  thread_setup : Int
  prov_request : Int
  name_alloc_ok : Bool

/-- Function `___hte_req_ts(gdev, desc, xlated_id, cb, tcb, data)` (source lines
966-1038).  `tcb` is the presence of a threaded callback, `desc_name_null`
whether the consumer left `desc->name` NULL, `cl` the opaque client data.

Faithful ordering: `try_module_get` first (fail → `-ENODEV` and nothing else);
`ei->xlated_id = xlated_id` is written before the registered check and is not
undone on any path; a registered channel gives `-EUSERS` via `goto unlock`
(module_put only); `ei->cb`/`ei->tcb` are assigned before thread setup and the
provider request, and are *not* cleared when either of those fails — both
failure paths only `module_put` and return the error.  Only the full success
path stores `cl_data`, bumps `ts_req`, computes `hte_name` and sets
`HTE_TS_REGISTERED`. -/
def ___hte_req_ts (env : ReqEnv) (gdev : HteDevice) (xlated_id : Nat)
    (cb : HteTsCb) (tcb : Bool) (desc_name_null : Bool) (cl : Nat) :
    Option (Int × HteDevice) :=
  if ¬env.module_get_ok then
    some (-ENODEV, gdev)
  else
    let pinned := { gdev with owner_refs := gdev.owner_refs + 1 }
    match pinned.ei.get? xlated_id with
    | none => none
    | some ei0 =>
      let ei1 := { ei0 with xlated_id := xlated_id }
      if ei1.registered then
        some (-EUSERS, { pinned with
          owner_refs := pinned.owner_refs - 1,
          ei := pinned.ei.set xlated_id ei1 })
      else
        let ei2 := { ei1 with cb := some cb, tcb := tcb }
        if tcb ∧ env.thread_setup < 0 then
          some (env.thread_setup, { pinned with
            owner_refs := pinned.owner_refs - 1,
            ei := pinned.ei.set xlated_id ei2 })
        else
          let ei3 := if tcb then { ei2 with thread := true } else ei2
          if env.prov_request < 0 then
            some (env.prov_request, { pinned with
              owner_refs := pinned.owner_refs - 1,
              ei := pinned.ei.set xlated_id ei3 })
          else
            let ei4 := { ei3 with
              cl_data := some cl,
              hte_name := desc_name_null && env.name_alloc_ok,
              registered := true }
            some (0, { pinned with
              ts_req := pinned.ts_req + 1,
              ei := pinned.ei.set xlated_id ei4 })

/-- Function `hte_simple_xlate(gc, args, desc, id)` (source lines 879-917): the default
identity translation.  `args` models the optional `of_phandle_args` as its
argument list.  Returns the pair (translated id, updated `desc->con_id`) on
success.  Note the bound check is `desc->con_id > gc->nlines`, so a `con_id`
equal to `nlines` is accepted. -/
def hte_simple_xlate (gc_nlines : Nat) (gc_of_hte_n_cells : Nat)
    (args : Option (List Nat)) (desc_con_id : Nat) : Except Int (Nat × Nat) :=
  match args with
  | some a =>
    if gc_of_hte_n_cells < 1 then Except.error (-EINVAL)
    else if a.length ≠ gc_of_hte_n_cells then Except.error (-EINVAL)
    else
      match a with
      | [] => Except.error (-EINVAL)
      | id :: _ =>
        if id > gc_nlines then Except.error (-EINVAL) else Except.ok (id, id)
  | none =>
    if desc_con_id > gc_nlines then Except.error (-EINVAL)
    else Except.ok (desc_con_id, desc_con_id)

/-- What one pass of the `_hte_wait_for_ts_data` loop body does at a point
where the kthread re-evaluates the world. -/
inductive WaitOutcome where
  | runCb
  | stopExit
  | sleep
deriving DecidableEq, Repr

/-- One iteration of `_hte_wait_for_ts_data` (source lines 919-941), as a
function of whether `kthread_should_stop()` holds and of the
`HTE_CB_RUN_THREAD` flag: on stop it first re-checks (test_and_clear) the
run flag and returns 0 (`runCb`) if it was set, else returns -1 (`stopExit`);
without a stop request it consumes a set flag (`runCb`) or goes back to
`schedule()` (`sleep`).  The second component is the flag after the
`test_and_clear_bit`. -/
def _hte_wait_for_ts_data_step (should_stop flag : Bool) :
    WaitOutcome × Bool :=
  if should_stop then
    if flag then (WaitOutcome.runCb, false) else (WaitOutcome.stopExit, false)
  else
    if flag then (WaitOutcome.runCb, false) else (WaitOutcome.sleep, false)

/-- Function `_hte_threadfn` (source lines 943-951) once `kthread_stop` has been
called (so `kthread_should_stop()` stays true until the thread exits):
`while (!_hte_wait_for_ts_data(ei)) ei->tcb(ei->cl_data);`.  Returns the
number of `tcb` invocations the worker still performs before exiting, given
the run flag at the moment the stop request is first observed.  `fuel` bounds
the loop; any `fuel ≥ 2` is enough. -/
def _hte_threadfn_after_stop : Nat → Bool → Nat
  | 0, _ => 0
  | fuel + 1, flag =>
    match _hte_wait_for_ts_data_step true flag with
    | (WaitOutcome.runCb, flag') => 1 + _hte_threadfn_after_stop fuel flag'
    | _ => 0

/-- Iterated dispatch on one channel: push the records of `ds` in order
through the locked section of `hte_push_ts_ns`, collecting the sequence
number delivered with each record (`data->seq` as seen by the consumer) and
the final channel state. -/
def pushChannelN : HteTsInfo → List HteTsData → Option (List Nat × HteTsInfo)
  | ei, [] => some ([], ei)
  | ei, d :: ds =>
    match pushChannel ei d with
    | none => none
    | some (o, ei') =>
      match pushChannelN ei' ds with
      | none => none
      | some (l, e) => some (o.ts.seq :: l, e)

/- Concrete fixtures used to instantiate the theorems below. -/

/-- A primary callback that always handles the record. -/
def cbHandledAll : HteTsCb := fun _ => HteReturn.cbHandled

/-- A primary callback that always reports a drop. -/
def cbDropAll : HteTsCb := fun _ => HteReturn.cbTsDropped

/-- A primary callback that always asks for the threaded callback. -/
def cbRunThreadedAll : HteTsCb := fun _ => HteReturn.runThreadedCb

/-- A sample raw timestamp record as a provider would push it. -/
def sampleData : HteTsData := ⟨100, 0, HteDir.risingEdgeTs⟩

/-- A channel that was never requested (all-zero state after
`hte_register_chip`'s `kzalloc`). -/
def chanIdle : HteTsInfo :=
  ⟨0, false, false, false, 0, false, none, false, 0, false, none⟩

/-- A channel registered with a handle-everything callback and no worker. -/
def chanReg : HteTsInfo :=
  ⟨0, true, false, false, 0, false, some cbHandledAll, false, 0, false, some 7⟩

/-- A registered channel whose callback always drops. -/
def chanDrop : HteTsInfo :=
  ⟨0, true, false, false, 0, false, some cbDropAll, false, 0, false, some 7⟩

/-- A registered channel with a worker whose callback always defers;
the run flag is currently set (a wake is pending). -/
def chanThreadedPending : HteTsInfo :=
  ⟨0, true, false, true, 0, false, some cbRunThreadedAll, true, 0, true, some 7⟩

/-- Same as `chanThreadedPending` but with no wake pending. -/
def chanThreadedQuiet : HteTsInfo :=
  ⟨0, true, false, false, 0, false, some cbRunThreadedAll, true, 0, true, some 7⟩

/-- A disabled registered channel. -/
def chanDisabled : HteTsInfo :=
  ⟨0, true, true, false, 0, false, some cbHandledAll, false, 0, false, some 7⟩

/-- One-line device holding a registered channel. -/
def devReg : HteDevice := ⟨1, 1, 1, [chanReg]⟩

/-- One-line device holding an idle (never requested) channel. -/
def devIdle : HteDevice := ⟨1, 0, 0, [chanIdle]⟩

/-- One-line device holding a disabled channel. -/
def devDisabled : HteDevice := ⟨1, 1, 1, [chanDisabled]⟩

/-- One-line device holding a registered channel with a worker. -/
def devThreaded : HteDevice := ⟨1, 1, 1, [chanThreadedPending]⟩

/-- Four-line device with no channel requested, as in the spec's end-to-end
scenario; its channel table has exactly four entries, indices 0..3. -/
def devFour : HteDevice := ⟨4, 0, 0, [chanIdle, chanIdle, chanIdle, chanIdle]⟩

/-- Request environment in which every external step succeeds. -/
def reqEnvOk : ReqEnv := ⟨true, 0, 0, true⟩

/-- Request environment in which `kthread_create` fails with `-12`
(`-ENOMEM`). -/
def reqEnvThreadFail : ReqEnv := ⟨true, -12, 0, true⟩

/-- Request environment in which the provider's `request` op fails with
`-7`. -/
def reqEnvProvFail : ReqEnv := ⟨true, 0, -7, true⟩

/- Helper lemmas. -/

theorem list_get_set_self {α : Type _} (l : List α) (i : Nat) (a : α)
    (h : i < l.length) : (l.set i a).get? i = some a := by
  induction l generalizing i with
  | nil => simp at h
  | cons x xs ih =>
    cases i with
    | zero => rfl
    | succ n =>
      simp only [List.set, List.get?]
      exact ih n (by simpa using h)

theorem list_lt_of_get {α : Type _} (l : List α) (i : Nat) (a : α)
    (h : l.get? i = some a) : i < l.length := by
  induction l generalizing i with
  | nil => simp [List.get?] at h
  | cons x xs ih =>
    cases i with
    | zero => simp
    | succ n =>
      simp only [List.get?] at h
      simpa using ih n h

theorem list_set_of_get {α : Type _} (l : List α) (i : Nat) (a : α)
    (h : l.get? i = some a) : l.set i a = l := by
  induction l generalizing i with
  | nil => simp at h
  | cons x xs ih =>
    cases i with
    | zero =>
      simp only [List.get?] at h
      cases h
      rfl
    | succ n =>
      simp only [List.get?] at h
      simp only [List.set]
      rw [ih n h]

/-- Everything a successful `pushChannel` step guarantees about the record it
delivers and the fields it leaves alone: the record carries the channel's
pre-push sequence number, the counter advances by exactly one (mod `2^64`),
and the registration/disable/callback/worker fields are untouched. -/
theorem pushChannel_some_inv (ei : HteTsInfo) (d : HteTsData) (o : PushOut)
    (ei' : HteTsInfo) (h : pushChannel ei d = some (o, ei')) :
    o.ts.seq = ei.seq ∧ o.ts.tsc = d.tsc ∧ ei'.seq = (ei.seq + 1) % 2 ^ 64 ∧
    ei'.cb = ei.cb ∧ ei'.registered = ei.registered ∧
    ei'.disabled = ei.disabled ∧ ei'.thread = ei.thread ∧
    ei'.tcb = ei.tcb ∧ ei'.cl_data = ei.cl_data := by
  simp only [pushChannel] at h
  repeat' split at h
  all_goals
    first
    | exact Option.noConfusion h
    | (simp only [Option.some.injEq, Prod.mk.injEq] at h
       obtain ⟨ho, he⟩ := h
       subst ho; subst he
       exact ⟨rfl, rfl, rfl, rfl, rfl, rfl, rfl, rfl, rfl⟩)

/-- A channel whose primary callback pointer is set always completes the
locked push section (no NULL-callback dereference). -/
theorem pushChannel_isSome_of_cb (ei : HteTsInfo) (d : HteTsData)
    (f : HteTsCb) (hcb : ei.cb = some f) :
    (pushChannel ei d).isSome := by
  simp only [pushChannel, hcb]
  repeat' split
  all_goals rfl

/-- A push on an unregistered or disabled channel: sequence still assigned
and advanced, `-EINVAL` returned, callback not invoked, no wake, and no field
other than `seq` changed. -/
theorem pushChannel_ignored (ei : HteTsInfo) (d : HteTsData)
    (h : ei.registered = false ∨ ei.disabled = true) :
    pushChannel ei d =
      some (⟨-EINVAL, { d with seq := ei.seq }, false, false⟩,
            { ei with seq := (ei.seq + 1) % 2 ^ 64 }) := by
  rcases h with h | h <;> simp [pushChannel, h]

/-- A dispatched push (registered, enabled, callback present), described
exactly, as a function of the callback's verdict on the delivered record. -/
theorem pushChannel_dispatched (ei : HteTsInfo) (d : HteTsData) (f : HteTsCb)
    (hcb : ei.cb = some f) (hreg : ei.registered = true)
    (hdis : ei.disabled = false) :
    pushChannel ei d =
      (let data' := { d with seq := ei.seq }
       let ei1 := { ei with seq := (ei.seq + 1) % 2 ^ 64 }
       match f data' with
       | HteReturn.runThreadedCb =>
         if ei.thread then
           if ei.run_thread then
             some (⟨0, data', true, false⟩, ei1)
           else
             some (⟨0, data', true, true⟩, { ei1 with run_thread := true })
         else
           some (⟨0, data', true, false⟩, ei1)
       | HteReturn.cbTsDropped =>
         some (⟨0, data', true, false⟩,
               { ei1 with dropped_ts := (ei.dropped_ts + 1) % 2 ^ 32 })
       | HteReturn.cbError => some (⟨0, data', true, false⟩, ei1)
       | HteReturn.cbHandled => some (⟨0, data', true, false⟩, ei1)) := by
  simp [pushChannel, hcb, hreg, hdis]

/-- Drop accounting of one dispatched push: `dropped_ts` advances by one
(mod `2^32`) exactly when the callback's verdict on the delivered record is
`HTE_CB_TS_DROPPED`, and is untouched for every other verdict (including a
`RunDeferred` with or without a worker). -/
theorem pushChannel_dropped (ei : HteTsInfo) (d : HteTsData) (f : HteTsCb)
    (hcb : ei.cb = some f) (hreg : ei.registered = true)
    (hdis : ei.disabled = false) (o : PushOut) (ei' : HteTsInfo)
    (h : pushChannel ei d = some (o, ei')) :
    ei'.dropped_ts =
      (if f { d with seq := ei.seq } = HteReturn.cbTsDropped
       then (ei.dropped_ts + 1) % 2 ^ 32 else ei.dropped_ts) := by
  cases hf : f { d with seq := ei.seq } with
  | cbTsDropped =>
    have hcomp : pushChannel ei d =
        some (⟨0, { d with seq := ei.seq }, true, false⟩,
          { ei with
            seq := (ei.seq + 1) % 2 ^ 64,
            dropped_ts := (ei.dropped_ts + 1) % 2 ^ 32 }) := by
      simp [pushChannel, hcb, hreg, hdis, hf]
    rw [hcomp] at h
    simp only [Option.some.injEq, Prod.mk.injEq] at h
    obtain ⟨-, he⟩ := h
    subst he
    simp
  | runThreadedCb =>
    cases hth : ei.thread with
    | false =>
      have hcomp : pushChannel ei d =
          some (⟨0, { d with seq := ei.seq }, true, false⟩,
            { ei with seq := (ei.seq + 1) % 2 ^ 64 }) := by
        simp [pushChannel, hcb, hreg, hdis, hf, hth]
      rw [hcomp] at h
      simp only [Option.some.injEq, Prod.mk.injEq] at h
      obtain ⟨-, he⟩ := h
      subst he
      simp [hf]
    | true =>
      cases hrt : ei.run_thread with
      | false =>
        have hcomp : pushChannel ei d =
            some (⟨0, { d with seq := ei.seq }, true, true⟩,
              { ei with
                seq := (ei.seq + 1) % 2 ^ 64,
                run_thread := true }) := by
          simp [pushChannel, hcb, hreg, hdis, hf, hth, hrt]
        rw [hcomp] at h
        simp only [Option.some.injEq, Prod.mk.injEq] at h
        obtain ⟨-, he⟩ := h
        subst he
        simp [hf]
      | true =>
        have hcomp : pushChannel ei d =
            some (⟨0, { d with seq := ei.seq }, true, false⟩,
              { ei with seq := (ei.seq + 1) % 2 ^ 64 }) := by
          simp [pushChannel, hcb, hreg, hdis, hf, hth, hrt]
        rw [hcomp] at h
        simp only [Option.some.injEq, Prod.mk.injEq] at h
        obtain ⟨-, he⟩ := h
        subst he
        simp [hf]
  | cbHandled =>
    have hcomp : pushChannel ei d =
        some (⟨0, { d with seq := ei.seq }, true, false⟩,
          { ei with seq := (ei.seq + 1) % 2 ^ 64 }) := by
      simp [pushChannel, hcb, hreg, hdis, hf]
    rw [hcomp] at h
    simp only [Option.some.injEq, Prod.mk.injEq] at h
    obtain ⟨-, he⟩ := h
    subst he
    simp [hf]
  | cbError =>
    have hcomp : pushChannel ei d =
        some (⟨0, { d with seq := ei.seq }, true, false⟩,
          { ei with seq := (ei.seq + 1) % 2 ^ 64 }) := by
      simp [pushChannel, hcb, hreg, hdis, hf]
    rw [hcomp] at h
    simp only [Option.some.injEq, Prod.mk.injEq] at h
    obtain ⟨-, he⟩ := h
    subst he
    simp [hf]

/-- Sequence bookkeeping of `n` consecutive pushes on one channel with a
callback in place: each delivered record carries the successive counter
values (mod `2^64`) and the counter ends at `seq + n` (mod `2^64`). -/
theorem pushChannelN_seq_trace (f : HteTsCb) (ds : List HteTsData) :
    ∀ ei : HteTsInfo, ei.cb = some f → ei.seq < 2 ^ 64 →
    ∃ e, pushChannelN ei ds =
        some ((List.range ds.length).map (fun k => (ei.seq + k) % 2 ^ 64), e)
      ∧ e.seq = (ei.seq + ds.length) % 2 ^ 64 ∧ e.cb = some f := by
  induction ds with
  | nil =>
    intro ei hcb hlt
    refine ⟨ei, ?_, ?_, hcb⟩
    · simp [pushChannelN]
    · simpa using (Nat.mod_eq_of_lt hlt).symm
  | cons d ds ih =>
    intro ei hcb hlt
    have hsome := pushChannel_isSome_of_cb ei d f hcb
    obtain ⟨⟨o, ei'⟩, hp⟩ := Option.isSome_iff_exists.mp hsome
    obtain ⟨hseq, -, hseq', hcb', -⟩ := pushChannel_some_inv ei d o ei' hp
    have hlt' : ei'.seq < 2 ^ 64 := by
      rw [hseq']; exact Nat.mod_lt _ (by norm_num)
    obtain ⟨e, hN, heseq, hecb⟩ := ih ei' (hcb'.trans hcb) hlt'
    refine ⟨e, ?_, ?_, hecb⟩
    · simp only [pushChannelN, hp, hN, Option.some.injEq, Prod.mk.injEq]
      refine ⟨?_, trivial⟩
      rw [List.length_cons, List.range_succ_eq_map, List.map_cons,
        List.map_map]
      have htail : (fun k => (ei'.seq + k) % 2 ^ 64) =
          ((fun k => (ei.seq + k) % 2 ^ 64) ∘ Nat.succ) := by
        funext k
        simp only [Function.comp_apply]
        rw [hseq', Nat.mod_add_mod]
        have hnum : ei.seq + 1 + k = ei.seq + Nat.succ k := by omega
        rw [hnum]
      rw [hseq, htail, Nat.add_zero, Nat.mod_eq_of_lt hlt]
    · rw [heseq, hseq', Nat.mod_add_mod, List.length_cons]
      have hnum : ei.seq + 1 + ds.length = ei.seq + (ds.length + 1) := by
        omega
      rw [hnum]

/-- Device-level push at a table index that actually exists (given the
registration invariant that the table has exactly `nlines` entries, such an
index also passes the `xlated_id > nlines` guard): the locked per-channel
section runs and its result is written back into the table. -/
theorem hte_push_ts_ns_in_bounds (gdev : HteDevice) (i : Nat) (d : HteTsData)
    (ei : HteTsInfo) (hlen : gdev.ei.length = gdev.nlines)
    (hget : gdev.ei.get? i = some ei) :
    hte_push_ts_ns gdev i d =
      (pushChannel ei d).map
        (fun p => (p.1, { gdev with ei := gdev.ei.set i p.2 })) := by
  have hi : i < gdev.ei.length := list_lt_of_get _ _ _ hget
  have hgt : ¬i > gdev.nlines := by omega
  simp only [hte_push_ts_ns, hget, decide_eq_false hgt, Bool.false_eq_true,
    if_false]
  cases hp : pushChannel ei d with
  | none => rfl
  | some p => cases p; rfl

/-- A second request on an already-registered channel fails with `-EUSERS`
and leaves the device exactly as it was (the module reference taken at entry
is dropped again; the write of `ei->xlated_id` re-stores the value the
registration already holds). -/
theorem req_ts_already_registered (env : ReqEnv) (gdev : HteDevice) (i : Nat)
    (ei : HteTsInfo) (cb : HteTsCb) (tcb dn : Bool) (cl : Nat)
    (hmod : env.module_get_ok = true) (hget : gdev.ei.get? i = some ei)
    (hreg : ei.registered = true) (hx : ei.xlated_id = i) :
    ___hte_req_ts env gdev i cb tcb dn cl = some (-EUSERS, gdev) := by
  have hei : HteTsInfo.mk i true ei.disabled ei.run_thread ei.seq
      ei.hte_name ei.cb ei.tcb ei.dropped_ts ei.thread ei.cl_data = ei := by
    cases ei
    simp only at hx hreg
    subst hx
    subst hreg
    rfl
  simp only [___hte_req_ts, hmod, not_true, if_false]
  simp only [hget, hreg, if_true]
  rw [hei, list_set_of_get _ _ _ hget, Nat.add_sub_cancel]

/-- A first request on an unregistered channel, with thread creation and the
provider's request succeeding, registers the channel: the module stays
pinned, `ts_req` is bumped, and the channel records the callbacks and client
data with `registered` set; `seq` and `dropped_ts` are left as they were
(they were zeroed by the previous release, or at allocation). -/
theorem req_ts_unregistered_success (env : ReqEnv) (gdev : HteDevice)
    (i : Nat) (ei : HteTsInfo) (cb : HteTsCb) (tcb dn : Bool) (cl : Nat)
    (hmod : env.module_get_ok = true) (hget : gdev.ei.get? i = some ei)
    (hreg : ei.registered = false)
    (hth : ¬(tcb = true ∧ env.thread_setup < 0))
    (hprov : ¬env.prov_request < 0) :
    ∃ gdev', ___hte_req_ts env gdev i cb tcb dn cl = some (0, gdev') ∧
      gdev'.owner_refs = gdev.owner_refs + 1 ∧
      gdev'.ts_req = gdev.ts_req + 1 ∧
      gdev'.ei.length = gdev.ei.length ∧
      ∃ ei', gdev'.ei.get? i = some ei' ∧ ei'.registered = true ∧
        ei'.xlated_id = i ∧ ei'.cb = some cb ∧ ei'.cl_data = some cl ∧
        ei'.seq = ei.seq ∧ ei'.dropped_ts = ei.dropped_ts := by
  have hi : i < gdev.ei.length := list_lt_of_get _ _ _ hget
  simp only [___hte_req_ts, hmod, not_true, if_false]
  simp only [hget, hreg, Bool.false_eq_true, if_false, hth]
  cases htc : tcb with
  | false =>
    simp only [Bool.false_eq_true, if_false, hprov]
    refine ⟨_, rfl, rfl, rfl, by simp, ?_⟩
    exact ⟨_, list_get_set_self _ _ _ (by simpa using hi), rfl, rfl, rfl,
      rfl, rfl, rfl⟩
  | true =>
    simp only [if_true, hprov]
    refine ⟨_, rfl, rfl, rfl, by simp, ?_⟩
    exact ⟨_, list_get_set_self _ _ _ (by simpa using hi), rfl, rfl, rfl,
      rfl, rfl, rfl⟩

/- Claim theorems. -/

/-- C2: for every push with an in-bounds translated id (the channel table has
exactly `nlines` entries), dispatch assigns the channel's current sequence
value into the delivered record and advances the counter by exactly one —
this also happens for unregistered/disabled channels, whose push still
completes — so `n ≤ 2^64` pushes on a channel whose counter starts at zero
deliver exactly the sequence numbers `0, 1, …, n-1` in order (the list
`List.range n`: strictly increasing, no duplicates, no regressions). -/
theorem claim_C2 :
    (∀ (gdev : HteDevice) (i : Nat) (d : HteTsData) (ei : HteTsInfo)
        (o : PushOut) (gdev' : HteDevice),
        gdev.ei.length = gdev.nlines →
        gdev.ei.get? i = some ei →
        hte_push_ts_ns gdev i d = some (o, gdev') →
        o.ts.seq = ei.seq ∧
          ∃ ei', gdev'.ei.get? i = some ei' ∧
            ei'.seq = (ei.seq + 1) % 2 ^ 64) ∧
    (∀ (gdev : HteDevice) (i : Nat) (d : HteTsData) (ei : HteTsInfo),
        gdev.ei.length = gdev.nlines →
        gdev.ei.get? i = some ei →
        (ei.registered = false ∨ ei.disabled = true) →
        ∃ o gdev', hte_push_ts_ns gdev i d = some (o, gdev')) ∧
    (∀ (f : HteTsCb) (ei : HteTsInfo) (ds : List HteTsData),
        ei.cb = some f → ei.seq = 0 → ds.length ≤ 2 ^ 64 →
        ∃ e, pushChannelN ei ds = some (List.range ds.length, e)) := by
  refine ⟨?_, ?_, ?_⟩
  · intro gdev i d ei o gdev' hlen hget hpush
    rw [hte_push_ts_ns_in_bounds gdev i d ei hlen hget] at hpush
    cases hp : pushChannel ei d with
    | none =>
      rw [hp] at hpush
      exact Option.noConfusion hpush
    | some p =>
      obtain ⟨o2, ei'⟩ := p
      rw [hp] at hpush
      simp only [Option.map, Option.some.injEq, Prod.mk.injEq] at hpush
      obtain ⟨ho, hg⟩ := hpush
      subst ho
      subst hg
      obtain ⟨h1, -, h3, -⟩ := pushChannel_some_inv ei d o2 ei' hp
      exact ⟨h1, ei',
        list_get_set_self _ _ _ (list_lt_of_get _ _ _ hget), h3⟩
  · intro gdev i d ei hlen hget hro
    rw [hte_push_ts_ns_in_bounds gdev i d ei hlen hget,
      pushChannel_ignored ei d hro]
    exact ⟨_, _, rfl⟩
  · intro f ei ds hcb h0 hn
    obtain ⟨e, hN, -, -⟩ :=
      pushChannelN_seq_trace f ds ei hcb (by rw [h0]; norm_num)
    rw [h0] at hN
    have hmap : (List.range ds.length).map (fun k => (0 + k) % 2 ^ 64) =
        List.range ds.length := by
      conv_rhs => rw [← List.map_id (List.range ds.length)]
      apply List.map_congr_left
      intro k hk
      simp only [id_eq, Nat.zero_add]
      exact Nat.mod_eq_of_lt (lt_of_lt_of_le (List.mem_range.mp hk) hn)
    rw [hmap] at hN
    exact ⟨e, hN⟩

/-- Witness for C2: on a concrete registered channel with counter at zero,
three pushes deliver exactly the sequence numbers 0, 1, 2. -/
theorem claim_C2_witness :
    chanReg.cb = some cbHandledAll ∧ chanReg.seq = 0 ∧
    ∃ e, pushChannelN chanReg [sampleData, sampleData, sampleData] =
      some (List.range 3, e) :=
  ⟨rfl, rfl, claim_C2.2.2 cbHandledAll chanReg
    [sampleData, sampleData, sampleData] rfl rfl (by norm_num)⟩

/-- C3: the claim (ids beyond the table bound are rejected before any state
is touched; no push indexes the table out of bounds) states the evident
intent, but the code's check is `xlated_id > chip->nlines`, an off-by-one:
on a device with `nlines = 4` (table indices 0..3), a push at
`xlated_id = 4` passes the guard and dereferences `&gdev->ei[4]`, one past
the end of the table — undefined behavior (`none` in the model), not the
`-EINVAL` the claim requires.  The default translation `hte_simple_xlate`
has the same off-by-one (`con_id > nlines`) and hands out id 4 as valid. -/
theorem claim_C3 :
    devFour.ei.length = devFour.nlines ∧
    decide (4 > devFour.nlines) = false ∧
    devFour.ei.get? 4 = none ∧
    hte_push_ts_ns devFour 4 sampleData = none ∧
    hte_simple_xlate 4 1 none 4 = Except.ok (4, 4) :=
  ⟨rfl, rfl, rfl, rfl, rfl⟩

/-- C4 (amended): a push to a channel whose `registered` flag is false or
whose `disabled` flag is true does not invoke the primary callback and
leaves `dropped_ts` (and every channel field except `seq`) unchanged, but
it returns the failure code `-EINVAL` — the same code as an invalid
argument — not a distinct non-error "Ignored" outcome. -/
theorem claim_C4 :
    ∀ (gdev : HteDevice) (i : Nat) (d : HteTsData) (ei : HteTsInfo),
      gdev.ei.length = gdev.nlines →
      gdev.ei.get? i = some ei →
      (ei.registered = false ∨ ei.disabled = true) →
      hte_push_ts_ns gdev i d =
        some (⟨-EINVAL, { d with seq := ei.seq }, false, false⟩,
          { gdev with
            ei := gdev.ei.set i { ei with seq := (ei.seq + 1) % 2 ^ 64 } })
      := by
  intro gdev i d ei hlen hget hro
  rw [hte_push_ts_ns_in_bounds gdev i d ei hlen hget,
    pushChannel_ignored ei d hro]
  rfl

/-- C4 counterexample: a push on an unregistered channel returns the error
code `-EINVAL` (negative, a failure code, and literally the same value an
out-of-bounds id produces) — not a non-error outcome as claimed. -/
theorem claim_C4_counterexample :
    (hte_push_ts_ns devIdle 0 sampleData).map (fun p => p.1.st) =
      some (-EINVAL) ∧
    (-EINVAL : Int) < 0 ∧
    (hte_push_ts_ns devIdle 5 sampleData).map (fun p => p.1.st) =
      some (-EINVAL) :=
  ⟨rfl, by norm_num [EINVAL], rfl⟩

/-- Witness for C4 at a concrete unregistered channel. -/
theorem claim_C4_witness :
    devIdle.ei.length = devIdle.nlines ∧ chanIdle.registered = false ∧
    hte_push_ts_ns devIdle 0 sampleData =
      some (⟨-EINVAL, { sampleData with seq := chanIdle.seq }, false, false⟩,
        { devIdle with
          ei := devIdle.ei.set 0
            { chanIdle with seq := (chanIdle.seq + 1) % 2 ^ 64 } }) :=
  ⟨rfl, rfl, claim_C4 devIdle 0 sampleData chanIdle rfl rfl (Or.inl rfl)⟩

/-- C1 (amended): when the provider's `release` op fails,
`hte_release_ts` aborts: the provider's error is returned to the caller and
none of the local software state is freed — `registered` stays set and the
counters, callbacks, worker and module pin are all untouched.  The local
software state is freed only when the provider's release returns 0. -/
theorem claim_C1 :
    ∀ (prov : Int) (gdev : HteDevice) (i : Nat) (ei : HteTsInfo),
      gdev.ei.get? i = some ei → ei.registered = true →
      (prov ≠ 0 → hte_release_ts prov gdev i = some (prov, gdev)) ∧
      (prov = 0 → hte_release_ts prov gdev i =
        some (0, { gdev with
          ts_req := gdev.ts_req - 1,
          owner_refs := gdev.owner_refs - 1,
          ei := gdev.ei.set i { ei with
            dropped_ts := 0, seq := 0, registered := false,
            cb := none, tcb := false, thread := false,
            cl_data := none } })) := by
  intro prov gdev i ei hget hreg
  have hget' : gdev.ei[i]? = some ei := by
    rw [← List.get?_eq_getElem?]; exact hget
  constructor
  · intro hne
    simp [hte_release_ts, hget', hreg, hne]
  · intro h0
    subst h0
    simp [hte_release_ts, hget', hreg]

/-- C1 counterexample: with a provider whose release fails (here `-5`),
release of a registered channel (with a live worker) returns the provider's
error and leaves the device bit-for-bit unchanged: the channel is still
registered, its callback still installed, the worker still alive and the
module still pinned — nothing was freed, refuting "frees the local software
state regardless of the provider's release result". -/
theorem claim_C1_counterexample :
    hte_release_ts (-5) devThreaded 0 = some (-5, devThreaded) ∧
    (hte_release_ts (-5) devThreaded 0).map
        (fun p => (p.2.ei.get? 0).map
          (fun e => (e.registered, e.cb.isSome, e.thread))) =
      some (some (true, true, true)) ∧
    (hte_release_ts (-5) devThreaded 0).map (fun p => p.2.owner_refs) =
      some 1 :=
  ⟨rfl, rfl, rfl⟩

/-- Witness for C1 on a concrete registered channel: provider failure `-5`
propagates with the device unchanged; provider success frees everything. -/
theorem claim_C1_witness :
    devReg.ei.get? 0 = some chanReg ∧ chanReg.registered = true ∧
    hte_release_ts (-5) devReg 0 = some (-5, devReg) ∧
    hte_release_ts 0 devReg 0 = some (0, { devReg with
      ts_req := devReg.ts_req - 1,
      owner_refs := devReg.owner_refs - 1,
      ei := devReg.ei.set 0 { chanReg with
        dropped_ts := 0, seq := 0, registered := false,
        cb := none, tcb := false, thread := false, cl_data := none } }) :=
  ⟨rfl, rfl,
    (claim_C1 (-5) devReg 0 chanReg rfl rfl).1 (by norm_num),
    (claim_C1 0 devReg 0 chanReg rfl rfl).2 rfl⟩

/-- C5 (amended): release of a channel that is not registered returns
`-EUSERS` with no state mutation; release of a registered channel *whose
provider release succeeds* leaves `registered = false`, `seq = 0`,
`dropped_ts = 0`, and the worker stopped and joined (`thread = false`,
`kthread_stop` being synchronous) before the call returns.  When the
provider's release fails the registered-channel postcondition does not hold
— see the counterexample. -/
theorem claim_C5 :
    ∀ (prov : Int) (gdev : HteDevice) (i : Nat) (ei : HteTsInfo),
      gdev.ei.get? i = some ei →
      (ei.registered = false →
        hte_release_ts prov gdev i = some (-EUSERS, gdev)) ∧
      (ei.registered = true → prov = 0 →
        ∃ gdev', hte_release_ts prov gdev i = some (0, gdev') ∧
          ∃ ei', gdev'.ei.get? i = some ei' ∧ ei'.registered = false ∧
            ei'.seq = 0 ∧ ei'.dropped_ts = 0 ∧ ei'.thread = false) := by
  intro prov gdev i ei hget
  have hget' : gdev.ei[i]? = some ei := by
    rw [← List.get?_eq_getElem?]; exact hget
  constructor
  · intro hreg
    simp [hte_release_ts, hget', hreg]
  · intro hreg h0
    subst h0
    have hrel : hte_release_ts 0 gdev i = some (0, { gdev with
        ts_req := gdev.ts_req - 1,
        owner_refs := gdev.owner_refs - 1,
        ei := gdev.ei.set i { ei with
          dropped_ts := 0, seq := 0, registered := false,
          cb := none, tcb := false, thread := false,
          cl_data := none } }) := by
      simp [hte_release_ts, hget', hreg]
    exact ⟨_, hrel, _,
      list_get_set_self _ _ _ (list_lt_of_get _ _ _ hget),
      rfl, rfl, rfl, rfl⟩

/-- C5 counterexample: the claim says release of a registered channel
*always* leaves `registered == false`, `sequence == 0`,
`dropped_count == 0`; but when the provider's release fails (here `-9`) the
channel stays registered with all its state. -/
theorem claim_C5_counterexample :
    (hte_release_ts (-9) devReg 0).map
        (fun p => (p.1, (p.2.ei.get? 0).map HteTsInfo.registered)) =
      some (-9, some true) := rfl

/-- Witness for C5: double release of a never-registered channel refuses
with `-EUSERS` and no mutation; release with a succeeding provider cleans a
registered channel with a live worker. -/
theorem claim_C5_witness :
    chanIdle.registered = false ∧
    hte_release_ts 3 devIdle 0 = some (-EUSERS, devIdle) ∧
    chanThreadedPending.registered = true ∧
    (∃ gdev', hte_release_ts 0 devThreaded 0 = some (0, gdev') ∧
      ∃ ei', gdev'.ei.get? 0 = some ei' ∧ ei'.registered = false ∧
        ei'.seq = 0 ∧ ei'.dropped_ts = 0 ∧ ei'.thread = false) :=
  ⟨rfl, (claim_C5 3 devIdle 0 chanIdle rfl).1 rfl,
    rfl, (claim_C5 0 devThreaded 0 chanThreadedPending rfl).2 rfl rfl⟩

/-- C6 (amended): when a request fails — worker creation failure
(propagating the `kthread_create` error) or provider request failure
(propagating the provider's error) — the module reference is dropped again
and the channel remains unregistered; however the unwind is not complete:
the stored callbacks are *not* cleared, and a worker that was already
created for the provider-failure case is *not* torn down. -/
theorem claim_C6 :
    ∀ (env : ReqEnv) (gdev : HteDevice) (i : Nat) (ei : HteTsInfo)
      (cb : HteTsCb) (dn : Bool) (cl : Nat),
      env.module_get_ok = true →
      gdev.ei.get? i = some ei → ei.registered = false →
      (env.thread_setup < 0 →
        ∃ gdev', ___hte_req_ts env gdev i cb true dn cl =
            some (env.thread_setup, gdev') ∧
          gdev'.owner_refs = gdev.owner_refs ∧
          ∃ ei', gdev'.ei.get? i = some ei' ∧ ei'.registered = false ∧
            ei'.cb = some cb ∧ ei'.tcb = true) ∧
      (∀ tcb : Bool, ¬(tcb = true ∧ env.thread_setup < 0) →
        env.prov_request < 0 →
        ∃ gdev', ___hte_req_ts env gdev i cb tcb dn cl =
            some (env.prov_request, gdev') ∧
          gdev'.owner_refs = gdev.owner_refs ∧
          ∃ ei', gdev'.ei.get? i = some ei' ∧ ei'.registered = false ∧
            ei'.cb = some cb ∧ (tcb = true → ei'.thread = true)) := by
  intro env gdev i ei cb dn cl hmod hget hreg
  have hget' : gdev.ei[i]? = some ei := by
    rw [← List.get?_eq_getElem?]; exact hget
  have hi : i < gdev.ei.length := list_lt_of_get _ _ _ hget
  constructor
  · intro hts
    have hreq : ___hte_req_ts env gdev i cb true dn cl =
        some (env.thread_setup, { gdev with
          owner_refs := gdev.owner_refs,
          ei := gdev.ei.set i { ei with
            xlated_id := i, cb := some cb, tcb := true } }) := by
      simp [___hte_req_ts, hmod, hget', hreg, hts]
    refine ⟨_, hreq, rfl, _, list_get_set_self _ _ _ hi, hreg, rfl, rfl⟩
  · intro tcb hcond hprov
    cases tcb with
    | false =>
      have hreq : ___hte_req_ts env gdev i cb false dn cl =
          some (env.prov_request, { gdev with
            owner_refs := gdev.owner_refs,
            ei := gdev.ei.set i { ei with
              xlated_id := i, cb := some cb, tcb := false } }) := by
        simp [___hte_req_ts, hmod, hget', hreg, hprov]
      refine ⟨_, hreq, rfl, _, list_get_set_self _ _ _ hi, hreg, rfl,
        fun h => Bool.noConfusion h⟩
    | true =>
      have hts : ¬env.thread_setup < 0 := fun h => hcond ⟨rfl, h⟩
      have hreq : ___hte_req_ts env gdev i cb true dn cl =
          some (env.prov_request, { gdev with
            owner_refs := gdev.owner_refs,
            ei := gdev.ei.set i { ei with
              xlated_id := i, cb := some cb, tcb := true,
              thread := true } }) := by
        simp [___hte_req_ts, hmod, hget', hreg, hts, hprov]
      refine ⟨_, hreq, rfl, _, list_get_set_self _ _ _ hi, hreg, rfl,
        fun _ => rfl⟩

/-- C6 counterexample: a request whose provider `request` op fails (`-7`),
with a threaded callback whose worker was already created, returns the
error with the channel unregistered — but the primary callback is still
stored, the threaded-callback flag still set, and the worker still alive:
the claimed "stored callbacks are cleared, any created worker is torn down"
does not happen. -/
theorem claim_C6_counterexample :
    (___hte_req_ts reqEnvProvFail devIdle 0 cbHandledAll true true 5).map
        (fun p => (p.1, (p.2.ei.get? 0).map
          (fun e => (e.registered, e.cb.isSome, e.tcb, e.thread)))) =
      some (-7, some (false, true, true, true)) := rfl

/-- Witness for C6 at the two concrete failure environments. -/
theorem claim_C6_witness :
    reqEnvThreadFail.thread_setup < 0 ∧
    (∃ gdev',
      ___hte_req_ts reqEnvThreadFail devIdle 0 cbHandledAll true true 5 =
          some (reqEnvThreadFail.thread_setup, gdev') ∧
        gdev'.owner_refs = devIdle.owner_refs ∧
        ∃ ei', gdev'.ei.get? 0 = some ei' ∧ ei'.registered = false ∧
          ei'.cb = some cbHandledAll ∧ ei'.tcb = true) ∧
    reqEnvProvFail.prov_request < 0 ∧
    (∃ gdev',
      ___hte_req_ts reqEnvProvFail devIdle 0 cbHandledAll true true 5 =
          some (reqEnvProvFail.prov_request, gdev') ∧
        gdev'.owner_refs = devIdle.owner_refs ∧
        ∃ ei', gdev'.ei.get? 0 = some ei' ∧ ei'.registered = false ∧
          ei'.cb = some cbHandledAll ∧
          (true = true → ei'.thread = true)) :=
  ⟨by decide,
    (claim_C6 reqEnvThreadFail devIdle 0 chanIdle cbHandledAll true 5
      rfl rfl rfl).1 (by decide),
    by decide,
    (claim_C6 reqEnvProvFail devIdle 0 chanIdle cbHandledAll true 5
      rfl rfl rfl).2 true (by decide) (by decide)⟩

/-- C7: a further request on an already-registered channel fails with
`-EUSERS` and drops the module reference it took, leaving the existing
registration (device and channel state, callbacks, worker, counters)
exactly unchanged; and of two requests for the same channel the first
succeeds and the second fails with `-EUSERS` — exactly one succeeds. -/
theorem claim_C7 :
    (∀ (env : ReqEnv) (gdev : HteDevice) (i : Nat) (ei : HteTsInfo)
        (cb : HteTsCb) (tcb dn : Bool) (cl : Nat),
        env.module_get_ok = true →
        gdev.ei.get? i = some ei →
        ei.registered = true → ei.xlated_id = i →
        ___hte_req_ts env gdev i cb tcb dn cl = some (-EUSERS, gdev)) ∧
    (∀ (env env2 : ReqEnv) (gdev : HteDevice) (i : Nat) (ei : HteTsInfo)
        (cb cb2 : HteTsCb) (tcb dn tcb2 dn2 : Bool) (cl cl2 : Nat),
        env.module_get_ok = true → env2.module_get_ok = true →
        gdev.ei.get? i = some ei → ei.registered = false →
        ¬(tcb = true ∧ env.thread_setup < 0) → ¬env.prov_request < 0 →
        ∃ gdev', ___hte_req_ts env gdev i cb tcb dn cl = some (0, gdev') ∧
          ___hte_req_ts env2 gdev' i cb2 tcb2 dn2 cl2 =
            some (-EUSERS, gdev')) := by
  constructor
  · exact fun env gdev i ei cb tcb dn cl hmod hget hreg hx =>
      req_ts_already_registered env gdev i ei cb tcb dn cl hmod hget hreg hx
  · intro env env2 gdev i ei cb cb2 tcb dn tcb2 dn2 cl cl2 hmod hmod2 hget
      hreg hth hprov
    obtain ⟨gdev', hone, -, -, -, ei', hget2, hreg', hx', -⟩ :=
      req_ts_unregistered_success env gdev i ei cb tcb dn cl hmod hget hreg
        hth hprov
    exact ⟨gdev', hone,
      req_ts_already_registered env2 gdev' i ei' cb2 tcb2 dn2 cl2 hmod2
        hget2 hreg' hx'⟩

/-- Witness for C7: a request on a concrete registered channel refuses and
changes nothing; from an idle channel, a request succeeds and an immediate
second request refuses. -/
theorem claim_C7_witness :
    chanReg.registered = true ∧ chanReg.xlated_id = 0 ∧
    ___hte_req_ts reqEnvOk devReg 0 cbDropAll false true 9 =
      some (-EUSERS, devReg) ∧
    (∃ gdev', ___hte_req_ts reqEnvOk devIdle 0 cbHandledAll false true 5 =
        some (0, gdev') ∧
      ___hte_req_ts reqEnvOk gdev' 0 cbDropAll false true 9 =
        some (-EUSERS, gdev')) :=
  ⟨rfl, rfl,
    claim_C7.1 reqEnvOk devReg 0 chanReg cbDropAll false true 9
      rfl rfl rfl rfl,
    claim_C7.2 reqEnvOk reqEnvOk devIdle 0 chanIdle cbHandledAll cbDropAll
      false true false true 5 9 rfl rfl rfl rfl (by decide) (by decide)⟩

/-- C8: for a registered channel, enable/disable are idempotent no-ops when
the channel is already in the target state (success returned, provider not
called, nothing changed); otherwise the provider op is called: on provider
failure the error is propagated and the `disabled` flag (and everything
else) is unchanged, on provider success the flag flips to the target
state. -/
theorem claim_C8 :
    ∀ (prov : Int) (gdev : HteDevice) (i : Nat) (ei : HteTsInfo) (en : Bool),
      gdev.ei.get? i = some ei → ei.registered = true →
      (ei.disabled = !en →
        hte_ts_dis_en_common prov gdev i en = some (0, false, gdev)) ∧
      (ei.disabled = en → prov ≠ 0 →
        hte_ts_dis_en_common prov gdev i en = some (prov, true, gdev)) ∧
      (ei.disabled = en → prov = 0 →
        hte_ts_dis_en_common prov gdev i en = some (0, true,
          { gdev with
            ei := gdev.ei.set i { ei with disabled := !en } })) := by
  intro prov gdev i ei en hget hreg
  have hget' : gdev.ei[i]? = some ei := by
    rw [← List.get?_eq_getElem?]; exact hget
  refine ⟨?_, ?_, ?_⟩
  · intro hd
    cases en <;> simp_all [hte_ts_dis_en_common]
  · intro hd hp
    cases en <;> simp_all [hte_ts_dis_en_common]
  · intro hd hp
    subst hp
    cases en <;> simp_all [hte_ts_dis_en_common]

/-- Witness for C8 on a concrete disabled registered channel: disabling
again is a success no-op without a provider call; enabling with a failing
provider (`-3`) propagates the error and leaves the flag; enabling with a
succeeding provider clears the flag. -/
theorem claim_C8_witness :
    chanDisabled.registered = true ∧ chanDisabled.disabled = !false ∧
    hte_ts_dis_en_common 7 devDisabled 0 false =
      some (0, false, devDisabled) ∧
    hte_ts_dis_en_common (-3) devDisabled 0 true =
      some (-3, true, devDisabled) ∧
    hte_ts_dis_en_common 0 devDisabled 0 true = some (0, true,
      { devDisabled with
        ei := devDisabled.ei.set 0 { chanDisabled with disabled := !true } })
    :=
  ⟨rfl, rfl,
    (claim_C8 7 devDisabled 0 chanDisabled false rfl rfl).1 rfl,
    (claim_C8 (-3) devDisabled 0 chanDisabled true rfl rfl).2.1 rfl
      (by decide),
    (claim_C8 0 devDisabled 0 chanDisabled true rfl rfl).2.2 rfl rfl⟩

/-- C9: on a registered, enabled channel a push increments `dropped_ts` by
one (mod `2^32`) exactly when the primary callback returns
`HTE_CB_TS_DROPPED` on the delivered record; every other verdict leaves it
unchanged.  Concretely, five pushes on a fresh channel whose callback
always drops end with `dropped_ts = 5` and `seq = 5`. -/
theorem claim_C9 :
    (∀ (ei : HteTsInfo) (d : HteTsData) (f : HteTsCb) (o : PushOut)
        (ei' : HteTsInfo),
        ei.cb = some f → ei.registered = true → ei.disabled = false →
        pushChannel ei d = some (o, ei') →
        ei'.dropped_ts =
          (if f { d with seq := ei.seq } = HteReturn.cbTsDropped
           then (ei.dropped_ts + 1) % 2 ^ 32 else ei.dropped_ts)) ∧
    (pushChannelN chanDrop
        [sampleData, sampleData, sampleData, sampleData, sampleData]).map
        (fun p => (p.2.dropped_ts, p.2.seq)) = some (5, 5) := by
  constructor
  · exact fun ei d f o ei' hcb hreg hdis hp =>
      pushChannel_dropped ei d f hcb hreg hdis o ei' hp
  · rfl

/-- Witness for C9: one dropped push on the concrete drop-everything
channel. -/
theorem claim_C9_witness :
    chanDrop.cb = some cbDropAll ∧ chanDrop.registered = true ∧
    (∃ o ei', pushChannel chanDrop sampleData = some (o, ei') ∧
      ei'.dropped_ts =
        (if cbDropAll { sampleData with seq := chanDrop.seq } =
            HteReturn.cbTsDropped
         then (chanDrop.dropped_ts + 1) % 2 ^ 32
         else chanDrop.dropped_ts)) :=
  ⟨rfl, rfl, _, _, rfl,
    claim_C9.1 chanDrop sampleData cbDropAll _ _ rfl rfl rfl rfl⟩

/-- C10: deferred wakes are coalesced and never lost.  A `RunDeferred`
verdict that finds the run flag already set issues no additional wake and
leaves the flag set (at-least-once, not exactly-once); finding it clear, it
sets the flag and wakes the worker.  On the worker side, the wait loop on
observing a stop request re-checks (test-and-clears) the run flag one last
time, so a final wake issued concurrently with the stop is consumed: the
worker then runs the secondary callback exactly once more before exiting,
and exits at once when no wake was pending. -/
theorem claim_C10 :
    (∀ (ei : HteTsInfo) (d : HteTsData) (f : HteTsCb) (o : PushOut)
        (ei' : HteTsInfo),
        ei.cb = some f → ei.registered = true → ei.disabled = false →
        ei.thread = true → ei.run_thread = true →
        f { d with seq := ei.seq } = HteReturn.runThreadedCb →
        pushChannel ei d = some (o, ei') →
        o.wake = false ∧ ei'.run_thread = true) ∧
    (∀ (ei : HteTsInfo) (d : HteTsData) (f : HteTsCb) (o : PushOut)
        (ei' : HteTsInfo),
        ei.cb = some f → ei.registered = true → ei.disabled = false →
        ei.thread = true → ei.run_thread = false →
        f { d with seq := ei.seq } = HteReturn.runThreadedCb →
        pushChannel ei d = some (o, ei') →
        o.wake = true ∧ ei'.run_thread = true) ∧
    _hte_wait_for_ts_data_step true true = (WaitOutcome.runCb, false) ∧
    (∀ (fuel : Nat) (flag : Bool),
        _hte_threadfn_after_stop (fuel + 2) flag = if flag then 1 else 0) := by
  refine ⟨?_, ?_, rfl, ?_⟩
  · intro ei d f o ei' hcb hreg hdis hth hrt hf hp
    simp [pushChannel, hcb, hreg, hdis, hth, hrt, hf] at hp
    obtain ⟨ho, he⟩ := hp
    subst ho
    subst he
    exact ⟨rfl, rfl⟩
  · intro ei d f o ei' hcb hreg hdis hth hrt hf hp
    simp [pushChannel, hcb, hreg, hdis, hth, hrt, hf] at hp
    obtain ⟨ho, he⟩ := hp
    subst ho
    subst he
    exact ⟨rfl, rfl⟩
  · intro fuel flag
    cases flag <;>
      simp [_hte_threadfn_after_stop, _hte_wait_for_ts_data_step]

/-- Witness for C10: on the concrete worker channel with a wake already
pending, a deferring push issues no wake; with no wake pending it issues
one; a worker observing stop with the flag set runs the secondary callback
exactly once before exiting. -/
theorem claim_C10_witness :
    (∃ o ei', pushChannel chanThreadedPending sampleData = some (o, ei') ∧
      o.wake = false ∧ ei'.run_thread = true) ∧
    (∃ o ei', pushChannel chanThreadedQuiet sampleData = some (o, ei') ∧
      o.wake = true ∧ ei'.run_thread = true) ∧
    _hte_threadfn_after_stop 2 true = 1 :=
  ⟨⟨_, _, rfl, claim_C10.1 chanThreadedPending sampleData cbRunThreadedAll
      _ _ rfl rfl rfl rfl rfl rfl rfl⟩,
   ⟨_, _, rfl, claim_C10.2.1 chanThreadedQuiet sampleData cbRunThreadedAll
      _ _ rfl rfl rfl rfl rfl rfl rfl⟩,
   by simpa using claim_C10.2.2.2 0 true⟩

end Hte
